import Mathlib

/-!
Shallow embedding of the pagination/handler core of the `tmdb-cli` crate
(`src/libs/handlers/{cursors,core,helpers,client,movies,tv}.rs`) together
with theorems checking the specification's claims about it.

Modelling conventions:
* `u64` is `Nat`; the one place the source performs `u64` arithmetic
  (`self.page += 1` in `Cursor::next_page`) is taken modulo `2 ^ 64`.
* `reqwest::Client` values are distinguished only by identity; the
  `client!` macro builds a fresh client on every invocation, which we model
  by drawing a fresh id from an allocation counter that is threaded through
  every constructor that invokes the macro.
* The network is an oracle: functions that perform a fetch take the outcome
  of that fetch (`FetchOutcome`) as an explicit argument.  `Result<_, _>`
  becomes `Except`; a `panic!` in a function whose Rust type has no error
  component becomes `Option` with `none` for the panic.
-/

namespace Tmdb

/-- The modulus of Rust's `u64` arithmetic. -/
def U64 : Nat := 2 ^ 64

/-- Identity of a `reqwest::Client`; clients are told apart by the order in
which they were allocated. -/
structure ReqwestClient where
  id : Nat
deriving Repr, DecidableEq

/-- Embeds the `client!` macro of `helpers.rs`: every expansion builds a
fresh `reqwest::Client` (30 s timeout); modelled as allocating a fresh id
and advancing the allocation counter. -/
def clientBang (next : Nat) : ReqwestClient × Nat :=
  (⟨next⟩, next + 1)

/-- Embeds `CursorPage<T>` of `cursors.rs`: the JSON response envelope for
list endpoints. -/
structure CursorPage (T : Type) where
  page : Nat
  results : List T
  total_pages : Int
  total_results : Int

/-- Embeds `Cursor<T>` of `cursors.rs`. -/
structure Cursor (T : Type) where
  url : String
  client : ReqwestClient
  token : String
  page : Nat
  params : List (String × String)
  results : List T
  total_pages : Int
  total_results : Int

/-- Embeds `Cursor::new`: builds a client via `client!` and an unhydrated
cursor at page 1 with empty params and results. -/
def Cursor.new (T : Type) (url : String) (token : String) (next : Nat) :
    Cursor T × Nat :=
  let (client, next) := clientBang next
  ({ url := url
     client := client
     token := token
     page := 1
     params := []
     results := []
     total_pages := 0
     total_results := 0 }, next)

/-- Embeds `Cursor::page` (renamed: the structure field is already called
`page`): sets the page field to the given value, no validation. -/
def Cursor.setPage {T : Type} (self : Cursor T) (page : Nat) : Cursor T :=
  { self with page := page }

/-- Embeds `Cursor::param` (renamed like `Cursor.setPage`): pushes one
key/value pair at the end of `params`. -/
def Cursor.addParam {T : Type} (self : Cursor T) (key value : String) :
    Cursor T :=
  { self with params := self.params ++ [(key, value)] }

/-- Embeds `Cursor::params` (renamed like `Cursor.setPage`): extends
`params` with the given list. -/
def Cursor.addParams {T : Type} (self : Cursor T)
    (params : List (String × String)) : Cursor T :=
  { self with params := self.params ++ params }

/-- The error type of a fetch, standing in for `reqwest::Error`. -/
inductive ReqError where
  | transport
  | status (code : Nat)
  | decode
deriving Repr, DecidableEq

/-- Oracle for one fetch: the request either fails in transport, or yields
a response with a status code whose body either decodes to an envelope
(`ok`) or does not (`badBody`). -/
inductive FetchOutcome (T : Type) where
  | transport
  | ok (code : Nat) (data : CursorPage T)
  | badBody (code : Nat)

/-- Embeds `reqwest::Response::error_for_status`: fails exactly on client
and server error codes (400–599). -/
def statusFails (code : Nat) : Bool :=
  400 ≤ code && code < 600

/-- An outgoing HTTP GET request: target url, the client issuing it, and
the query pairs in the order `reqwest`'s `query` calls appended them. -/
structure Request where
  url : String
  client : ReqwestClient
  query : List (String × String)
deriving Repr, DecidableEq

/-- Embeds the request-building half of `Cursor::exec`: `api_key`, then
`page` (the `u64` rendered in decimal), then all accumulated params. -/
def Cursor.request {T : Type} (self : Cursor T) : Request :=
  { url := self.url
    client := self.client
    query := [("api_key", self.token), ("page", toString self.page)]
      ++ self.params }

/-- Embeds the body of `Cursor::exec` while keeping the final value of the
local `self` observable: returns the state of `self` at the point the
function returns, paired with the error if one was raised.  `self` is
mutated only after `get!` and the JSON decode both succeed. -/
def Cursor.execCore {T : Type} (self : Cursor T) (resp : FetchOutcome T) :
    Cursor T × Option ReqError :=
  match resp with
  | .transport => (self, some .transport)
  | .badBody code =>
      if statusFails code then (self, some (.status code))
      else (self, some .decode)
  | .ok code data =>
      if statusFails code then (self, some (.status code))
      else
        ({ self with
            results := data.results
            total_pages := data.total_pages
            total_results := data.total_results }, none)

/-- Embeds `Cursor::exec` with its Rust signature
`Result<Self, reqwest::Error>`. -/
def Cursor.exec {T : Type} (self : Cursor T) (resp : FetchOutcome T) :
    Except ReqError (Cursor T) :=
  match Cursor.execCore self resp with
  | (s, none) => .ok s
  | (_, some e) => .error e

/-- Embeds the `self.page += 1` statement of `Cursor::next_page` (`u64`
increment, hence modulo `2 ^ 64`). -/
def Cursor.incPage {T : Type} (self : Cursor T) : Cursor T :=
  { self with page := (self.page + 1) % U64 }

/-- Embeds `Cursor::next_page`: increment the page, then `exec`. -/
def Cursor.next_page {T : Type} (self : Cursor T) (resp : FetchOutcome T) :
    Except ReqError (Cursor T) :=
  (Cursor.incPage self).exec resp

/-- `Cursor.execCore` after the page increment of `next_page`. -/
def Cursor.nextPageCore {T : Type} (self : Cursor T)
    (resp : FetchOutcome T) : Cursor T × Option ReqError :=
  (Cursor.incPage self).execCore resp

/-- The request issued by `Cursor::next_page`: the `exec` request of the
incremented cursor. -/
def Cursor.nextPageRequest {T : Type} (self : Cursor T) : Request :=
  (Cursor.incPage self).request

/-- Embeds `chrono::NaiveDate` (an external collaborator): a plain
calendar-date record; only carried, never computed with. -/
structure NaiveDate where
  year : Int
  month : Nat
  day : Nat
deriving Repr, DecidableEq

/-- Embeds the `Movie` record of `models/movies.rs` (field names as in the
source, including the `original_lnguage` spelling). -/
structure Movie where
  poster_path : Option String
  adult : Bool
  overview : String
  release_date : NaiveDate
  genre_ids : List Int
  id : Int
  original_title : String
  original_lnguage : Option String
  title : String
  backdrop_path : Option String
  popularity : Float
  vote_count : Nat
  video : Bool
  vote_average : Float

/-- Embeds the `Movies` handler of `movies.rs`. -/
structure Movies where
  host : String
  client : ReqwestClient
  token : String

/-- Embeds `Movies::new`: builds its own client via `client!`. -/
def Movies.new (host : String) (token : String) (next : Nat) :
    Movies × Nat :=
  let (client, next) := clientBang next
  ({ host := host, client := client, token := token }, next)

/-- Embeds `MovieSearch` of `movies.rs`; the `handler` field models the
`&Movies` back-reference. -/
structure MovieSearch where
  url : String
  handler : Movies
  page : Nat
  query : String
  region : Option String
  year : Option String
  primary_year : Option String
  language : Option String
  adult : Bool

/-- Embeds `Movies::search`: a builder at page 1 with only the query set. -/
def Movies.search (self : Movies) (query : String) : MovieSearch :=
  { url := self.host ++ "/3/search/movie"
    handler := self
    page := 1
    query := query
    region := none
    year := none
    primary_year := none
    language := none
    adult := false }

/-- Embeds `Movies::details`' request building: url `/3/movie/{id}` with
the `api_key` query parameter, issued through the handler's client. -/
def Movies.detailsRequest (self : Movies) (id : Int) : Request :=
  { url := self.host ++ "/3/movie/" ++ toString id
    client := self.client
    query := [("api_key", self.token)] }

/-- Embeds `Movies::credits`' request building: url
`/3/movie/{id}/credits` with the `api_key` query parameter, issued through
the handler's client. -/
def Movies.creditsRequest (self : Movies) (id : Int) : Request :=
  { url := self.host ++ "/3/movie/" ++ toString id ++ "/credits"
    client := self.client
    query := [("api_key", self.token)] }

/-- Embeds `Movies::reviews` modulo the item type: a fresh cursor at the
reviews url. -/
def Movies.reviews (self : Movies) (id : Int) (next : Nat) :
    Cursor Movie × Nat :=
  Cursor.new Movie (self.host ++ "/3/movie/" ++ toString id ++ "/reviews")
    self.token next

/-- Embeds `Movies::recommendations`: a fresh cursor at the
recommendations url. -/
def Movies.recommendations (self : Movies) (id : Int) (next : Nat) :
    Cursor Movie × Nat :=
  Cursor.new Movie
    (self.host ++ "/3/movie/" ++ toString id ++ "/recommendations")
    self.token next

/-- Embeds `Movies::similar`: a fresh cursor at the similar-movies url. -/
def Movies.similar (self : Movies) (id : Int) (next : Nat) :
    Cursor Movie × Nat :=
  Cursor.new Movie (self.host ++ "/3/movie/" ++ toString id ++ "/similar")
    self.token next

/-- Embeds `Movies::popular`: a fresh cursor at the popular-movies url. -/
def Movies.popular (self : Movies) (next : Nat) : Cursor Movie × Nat :=
  Cursor.new Movie (self.host ++ "/3/movie/popular") self.token next

/-- Embeds the `opt_param!` macro of `helpers.rs`: push `(name, value)` iff
the option is set. -/
def optParam (params : List (String × String)) (name : String)
    (opt : Option String) : List (String × String) :=
  match opt with
  | some o => params ++ [(name, o)]
  | none => params

/-- Embeds `MovieSearch::year`: stores `year.to_string()`. -/
def MovieSearch.setYear (self : MovieSearch) (year : Nat) : MovieSearch :=
  { self with year := some (toString year) }

/-- Embeds `MovieSearch::page` (renamed: the field is called `page`). -/
def MovieSearch.setPage (self : MovieSearch) (page : Nat) : MovieSearch :=
  { self with page := page }

/-- Embeds `MovieSearch::region`. -/
def MovieSearch.setRegion (self : MovieSearch) (region : String) :
    MovieSearch :=
  { self with region := some region }

/-- Embeds `MovieSearch::language`. -/
def MovieSearch.setLanguage (self : MovieSearch) (lang : String) :
    MovieSearch :=
  { self with language := some lang }

/-- Embeds `MovieSearch::adult`. -/
def MovieSearch.setAdult (self : MovieSearch) : MovieSearch :=
  { self with adult := true }

/-- Embeds the parameter-assembly lines of `MovieSearch::exec`: `query`,
`adult` (the bool rendered as "true"/"false"), then the optional params in
source order. -/
def MovieSearch.execParams (self : MovieSearch) :
    List (String × String) :=
  let adult := toString self.adult
  let params : List (String × String) :=
    [("query", self.query), ("adult", adult)]
  let params := optParam params "region" self.region
  let params := optParam params "year" self.year
  let params := optParam params "primary_year" self.primary_year
  optParam params "language" self.language

/-- Embeds `MovieSearch::exec`: build the params, then drive a brand-new
cursor (`new`, `page(self.page)`, `params`) through one `next_page`. -/
def MovieSearch.exec (self : MovieSearch) (next : Nat)
    (resp : FetchOutcome Movie) :
    Except ReqError (Cursor Movie) × Nat :=
  let (c, next) := Cursor.new Movie self.url self.handler.token next
  (((c.setPage self.page).addParams self.execParams).next_page resp, next)

/-- The request issued inside `MovieSearch::exec`: the `next_page` request
of the cursor it builds. -/
def MovieSearch.execRequest (self : MovieSearch) (next : Nat) : Request :=
  let (c, _) := Cursor.new Movie self.url self.handler.token next
  ((c.setPage self.page).addParams self.execParams).nextPageRequest

/-- Embeds the `Tv` handler of `tv.rs` (only its construction is needed
here). -/
structure Tv where
  host : String
  client : ReqwestClient
  token : String

/-- Embeds `Tv::new`: builds its own client via `client!`. -/
def Tv.new (host : String) (token : String) (next : Nat) : Tv × Nat :=
  let (client, next) := clientBang next
  ({ host := host, client := client, token := token }, next)

/-- Embeds the composite `Client` of `client.rs`. -/
structure Client where
  movies : Movies
  tv : Tv

/-- Embeds `Client::new`: fixed host, a movie handler and a tv handler. -/
def Client.new (token : String) (next : Nat) : Client × Nat :=
  let host := "https://api.themoviedb.org"
  let (movies, next) := Movies.new host token next
  let (tv, next) := Tv.new host token next
  ({ movies := movies, tv := tv }, next)

/-- Embeds `Client::from_env` over an explicit environment: reads
`TMDB_TOKEN`; the `panic!` on a missing variable is modelled as `none`
(construction terminates fatally, no recoverable error value exists —
the Rust return type is `Self`, not `Result`). -/
def Client.from_env (env : String → Option String) (next : Nat) :
    Option (Client × Nat) :=
  match env "TMDB_TOKEN" with
  | some token => some (Client.new token next)
  | none => none

/-- One cursor operation, for reachability statements: the argument of a
fetch operation is the oracle outcome of its request. -/
inductive Op (T : Type) where
  | opPage (n : Nat)
  | opParam (key value : String)
  | opParams (ps : List (String × String))
  | opExec (resp : FetchOutcome T)
  | opNext (resp : FetchOutcome T)

/-- Applies one operation to a cursor; for the fetch operations the cursor
left behind is the final value of the local `self` (`execCore`). -/
def Cursor.step {T : Type} (c : Cursor T) : Op T → Cursor T
  | .opPage n => c.setPage n
  | .opParam k v => c.addParam k v
  | .opParams ps => c.addParams ps
  | .opExec r => (c.execCore r).1
  | .opNext r => (c.nextPageCore r).1

/-- Runs a sequence of operations on a cursor. -/
def Cursor.run {T : Type} (c : Cursor T) : List (Op T) → Cursor T
  | [] => c
  | op :: rest => Cursor.run (c.step op) rest

/-- Side conditions under which the page counter stays well-behaved: every
`page(n)` sets a `u64` value that is at least 1, and no `next_page`
increment wraps around `u64`. -/
def Cursor.stepOk {T : Type} (c : Cursor T) : Op T → Bool
  | .opPage n => 1 ≤ n && n < U64
  | .opNext _ => c.page + 1 < U64
  | _ => true

/-- `Cursor.stepOk` holding along a whole operation sequence. -/
def Cursor.stepsOk {T : Type} (c : Cursor T) : List (Op T) → Bool
  | [] => true
  | op :: rest => c.stepOk op && (c.step op).stepsOk rest

/-- A concrete movie record used to exercise the theorems on non-empty
result lists. -/
def sampleMovie : Movie :=
  { poster_path := some "/poster.png"
    adult := false
    overview := "a movie"
    release_date := { year := 2016, month := 1, day := 15 }
    genre_ids := [28, 53]
    id := 300671
    original_title := "13 Hours"
    original_lnguage := some "en"
    title := "13 Hours"
    backdrop_path := none
    popularity := 12.5
    vote_count := 100
    video := false
    vote_average := 7.5 }

/-- A concrete response envelope with one result; its `page` field (7)
deliberately differs from any cursor page it is fed to. -/
def sampleEnvelope : CursorPage Movie :=
  { page := 7, results := [sampleMovie], total_pages := 5,
    total_results := 100 }

/-- A concrete empty response envelope. -/
def emptyEnvelope : CursorPage Movie :=
  { page := 1, results := [], total_pages := 5, total_results := 100 }

/-- Specification test scenario: build a movie handler, take the
`popular()` cursor and advance it with `next_page` twice; yields the
request issued by the second `next_page` together with its outcome, or
`none` when the first advance already failed. -/
def popularTwice (host : String) (tok : String) (next : Nat)
    (r1 r2 : FetchOutcome Movie) :
    Option (Request × Except ReqError (Cursor Movie)) :=
  let (m, a) := Movies.new host tok next
  let (c0, _) := m.popular a
  match c0.next_page r1 with
  | .error _ => none
  | .ok c1 => some (c1.nextPageRequest, c1.next_page r2)

/-- Observables of `popularTwice`: the query of the second `next_page`
request and the final cursor's page, when both advances succeed. -/
def popularTwiceObs (host : String) (tok : String) (next : Nat)
    (r1 r2 : FetchOutcome Movie) :
    Option (List (String × String) × Nat) :=
  match popularTwice host tok next r1 r2 with
  | some (req, .ok c2) => some (req.query, c2.page)
  | _ => none

/-- Specification test scenario: `search("13 Hours").year(2016)` on a
handler for host `http://host` with token `tok`. -/
def searchScenario : MovieSearch :=
  ((Movies.new "http://host" "tok" 0).1.search "13 Hours").setYear 2016

/-- A hydrated cursor (as left behind by an earlier successful fetch),
used to exercise the failure-frame theorems. -/
def loadedCursor : Cursor Movie :=
  { (Cursor.new Movie "u" "t" 0).1 with
      page := 2
      results := [sampleMovie]
      total_pages := 5
      total_results := 100 }

/-- The cursor produced by a successful `exec` of a fresh cursor against
`sampleEnvelope`. -/
def c1post : Cursor Movie :=
  { (Cursor.new Movie "u" "t" 0).1 with
      results := [sampleMovie]
      total_pages := 5
      total_results := 100 }

/-- A concrete operation sequence: set a page, add a param, advance with a
transport failure, fetch successfully, then advance into a 404. -/
def c6ops : List (Op Movie) :=
  [Op.opPage 5, Op.opParam "a" "1", Op.opNext FetchOutcome.transport,
    Op.opExec (FetchOutcome.ok 200 emptyEnvelope),
    Op.opNext (FetchOutcome.ok 404 emptyEnvelope)]

/-- The movie handler of the client-identity scenario. -/
def c7handler : Movies := (Movies.new "h" "t" 0).1

/-- The first `popular()` cursor built from `c7handler`. -/
def c7cursor1 : Cursor Movie :=
  (c7handler.popular (Movies.new "h" "t" 0).2).1

/-- The second `popular()` cursor built from `c7handler`. -/
def c7cursor2 : Cursor Movie :=
  (c7handler.popular (c7handler.popular (Movies.new "h" "t" 0).2).2).1

/-- An environment with no variables set. -/
def envEmpty : String → Option String := fun _ => none

/-- An environment holding only `TMDB_TOKEN`. -/
def envTok : String → Option String :=
  fun k => if k = "TMDB_TOKEN" then some "secret" else none

/-- Helper: `execCore` never touches the page field (its first component
is either the untouched `self` or `self` with only the three result fields
replaced). -/
theorem Cursor.execCore_fst_page {T : Type} (c : Cursor T)
    (r : FetchOutcome T) : ((c.execCore r).1).page = c.page := by
  cases r with
  | transport => rfl
  | badBody code =>
      by_cases hs : statusFails code <;> simp [Cursor.execCore, hs]
  | ok code data =>
      by_cases hs : statusFails code <;> simp [Cursor.execCore, hs]

/-- Helper: `execCore` never touches the client field. -/
theorem Cursor.execCore_fst_client {T : Type} (c : Cursor T)
    (r : FetchOutcome T) : ((c.execCore r).1).client = c.client := by
  cases r with
  | transport => rfl
  | badBody code =>
      by_cases hs : statusFails code <;> simp [Cursor.execCore, hs]
  | ok code data =>
      by_cases hs : statusFails code <;> simp [Cursor.execCore, hs]

/-- Helper: no cursor operation ever touches the client field. -/
theorem Cursor.step_client {T : Type} (c : Cursor T) (op : Op T) :
    (c.step op).client = c.client := by
  cases op with
  | opPage n => rfl
  | opParam k v => rfl
  | opParams ps => rfl
  | opExec r => exact Cursor.execCore_fst_client c r
  | opNext r => exact Cursor.execCore_fst_client (c.incPage) r

/-- Helper: the client of a cursor is fixed over any operation
sequence. -/
theorem Cursor.run_client {T : Type} (ops : List (Op T)) :
    ∀ c : Cursor T, (c.run ops).client = c.client := by
  induction ops with
  | nil => intro c; rfl
  | cons op rest ih =>
      intro c
      calc ((c.step op).run rest).client = (c.step op).client := ih _
        _ = c.client := Cursor.step_client c op

/-- Helper: along a sequence satisfying `stepsOk`, the page stays in
`[1, 2^64)`. -/
theorem Cursor.run_page_bounds {T : Type} (ops : List (Op T)) :
    ∀ c : Cursor T, 1 ≤ c.page → c.page < U64 → c.stepsOk ops = true →
      1 ≤ (c.run ops).page ∧ (c.run ops).page < U64 := by
  induction ops with
  | nil => intro c h1 h2 _; exact ⟨h1, h2⟩
  | cons op rest ih =>
      intro c h1 h2 hok
      rw [Cursor.stepsOk, Bool.and_eq_true] at hok
      obtain ⟨hop, hrest⟩ := hok
      have hstep : 1 ≤ (c.step op).page ∧ (c.step op).page < U64 := by
        cases op with
        | opPage n =>
            simp only [Cursor.stepOk, Bool.and_eq_true,
              decide_eq_true_eq] at hop
            simpa [Cursor.step, Cursor.setPage] using hop
        | opParam k v =>
            exact ⟨h1, h2⟩
        | opParams ps =>
            exact ⟨h1, h2⟩
        | opExec r =>
            simpa [Cursor.step, Cursor.execCore_fst_page] using ⟨h1, h2⟩
        | opNext r =>
            simp only [Cursor.stepOk, decide_eq_true_eq] at hop
            simp only [Cursor.step, Cursor.nextPageCore,
              Cursor.execCore_fst_page, Cursor.incPage,
              Nat.mod_eq_of_lt hop]
            omega
      exact ih (c.step op) hstep.1 hstep.2 hrest


/-- C1: for every cursor and every successfully decoded response envelope,
`Cursor::exec` replaces the cursor's `results`, `total_pages` and
`total_results` fields with exactly the envelope's values — no
transformation, filtering or re-ordering of the results sequence. -/
theorem c1_exec_replaces_exactly {T : Type} (c : Cursor T) (code : Nat)
    (data : CursorPage T) (c' : Cursor T)
    (h : c.exec (.ok code data) = .ok c') :
    c'.results = data.results ∧ c'.total_pages = data.total_pages ∧
      c'.total_results = data.total_results := by
  unfold Cursor.exec Cursor.execCore at h
  by_cases hs : statusFails code
  · simp [hs] at h
  · simp [hs] at h
    subst h
    exact ⟨rfl, rfl, rfl⟩

/-- Witness for C1: a fresh cursor executed against `sampleEnvelope` ends
up holding exactly the envelope's results and totals. -/
theorem c1_exec_replaces_exactly_witness :
    c1post.results = sampleEnvelope.results ∧
      c1post.total_pages = sampleEnvelope.total_pages ∧
      c1post.total_results = sampleEnvelope.total_results :=
  c1_exec_replaces_exactly (Cursor.new Movie "u" "t" 0).1 200
    sampleEnvelope c1post rfl

/-- C2: `next_page` is exactly `exec` on the cursor with its page
incremented by one (`u64` increment), and on a freshly constructed cursor
(page 1, unfetched, no prior `exec`) the request it issues carries
`page=2`. -/
theorem c2_next_page_is_exec_on_next (T : Type) (c : Cursor T)
    (resp : FetchOutcome T) (url tok : String) (n : Nat) :
    c.next_page resp = (c.setPage ((c.page + 1) % U64)).exec resp ∧
      (Cursor.new T url tok n).1.nextPageRequest.query =
        [("api_key", tok), ("page", "2")] := by
  refine ⟨rfl, ?_⟩
  show ([("api_key", tok), ("page", toString ((1 + 1) % U64))] ++ []
      : List (String × String)) = [("api_key", tok), ("page", "2")]
  rfl

/-- C5: a failed fetch (transport error, non-2xx status, or decode
failure) propagates its error to the caller and leaves the cursor exactly
as it was; for `next_page` the pre-incremented page is the one exception
and is not rolled back. -/
theorem c5_failed_exec_frame {T : Type} (c : Cursor T)
    (resp : FetchOutcome T) (e : ReqError) :
    ((c.execCore resp).2 = some e →
      (c.execCore resp).1 = c ∧ c.exec resp = .error e) ∧
    ((c.nextPageCore resp).2 = some e →
      (c.nextPageCore resp).1 = c.incPage ∧
        c.next_page resp = .error e ∧
        ((c.nextPageCore resp).1).page = (c.page + 1) % U64) := by
  have core : ∀ d : Cursor T, (d.execCore resp).2 = some e →
      (d.execCore resp).1 = d ∧ d.exec resp = .error e := by
    intro d hd
    cases resp with
    | transport =>
        simp only [Cursor.execCore, Option.some_inj] at hd
        subst hd
        exact ⟨rfl, rfl⟩
    | badBody code =>
        by_cases hs : statusFails code <;>
          simp_all [Cursor.exec, Cursor.execCore, hs]
    | ok code data =>
        by_cases hs : statusFails code <;>
          simp_all [Cursor.exec, Cursor.execCore, hs]
  constructor
  · exact core c
  · intro hn
    have h := core c.incPage hn
    exact ⟨h.1, h.2, by rw [Cursor.nextPageCore, h.1]; rfl⟩

/-- Witness for C5: a hydrated cursor fed a 404 keeps its loaded state and
surfaces the status error; `next_page` into the same 404 keeps everything
but the pre-incremented page. -/
theorem c5_failed_exec_frame_witness :
    ((loadedCursor.execCore (.ok 404 emptyEnvelope)).1 = loadedCursor ∧
      loadedCursor.exec (.ok 404 emptyEnvelope) =
        .error (.status 404)) ∧
    ((loadedCursor.nextPageCore (.ok 404 emptyEnvelope)).1 =
        loadedCursor.incPage ∧
      loadedCursor.next_page (.ok 404 emptyEnvelope) =
        .error (.status 404) ∧
      ((loadedCursor.nextPageCore (.ok 404 emptyEnvelope)).1).page =
        (loadedCursor.page + 1) % U64) :=
  ⟨(c5_failed_exec_frame loadedCursor (.ok 404 emptyEnvelope)
      (.status 404)).1 rfl,
    (c5_failed_exec_frame loadedCursor (.ok 404 emptyEnvelope)
      (.status 404)).2 rfl⟩

/-- C8: `param`/`params` are strictly additive — both lists end up
present, in order, nothing removed or deduplicated — and the request sends
every accumulated pair (duplicates included) after `api_key` and
`page`. -/
theorem c8_params_additive {T : Type} (c : Cursor T)
    (ps qs : List (String × String)) (k v : String) :
    ((c.addParams ps).addParams qs).params = c.params ++ ps ++ qs ∧
      ((c.addParam k v).addParams ps).params =
        c.params ++ [(k, v)] ++ ps ∧
      c.request.query =
        [("api_key", c.token), ("page", toString c.page)] ++ c.params := by
  refine ⟨?_, ?_, rfl⟩ <;>
    simp [Cursor.addParams, Cursor.addParam, List.append_assoc]

/-- C10: a successful `exec` leaves `url`, `client`, `token`, `page` and
`params` unchanged; in particular the `page` field of the decoded envelope
is discarded (the witness feeds an envelope whose page differs from the
cursor's). -/
theorem c10_exec_success_frame {T : Type} (c : Cursor T)
    (resp : FetchOutcome T) (c' : Cursor T) (h : c.exec resp = .ok c') :
    c'.url = c.url ∧ c'.client = c.client ∧ c'.token = c.token ∧
      c'.page = c.page ∧ c'.params = c.params := by
  cases resp with
  | transport => simp [Cursor.exec, Cursor.execCore] at h
  | badBody code =>
      by_cases hs : statusFails code <;>
        simp [Cursor.exec, Cursor.execCore, hs] at h
  | ok code data =>
      by_cases hs : statusFails code
      · simp [Cursor.exec, Cursor.execCore, hs] at h
      · simp [Cursor.exec, Cursor.execCore, hs] at h
        subst h
        exact ⟨rfl, rfl, rfl, rfl, rfl⟩

/-- Witness for C10: the envelope's page is 7 but the cursor stays at page
1 after a successful `exec`; url, client, token and params survive. -/
theorem c10_exec_success_frame_witness :
    c1post.url = ((Cursor.new Movie "u" "t" 0).1).url ∧
      c1post.client = ((Cursor.new Movie "u" "t" 0).1).client ∧
      c1post.token = ((Cursor.new Movie "u" "t" 0).1).token ∧
      c1post.page = ((Cursor.new Movie "u" "t" 0).1).page ∧
      c1post.params = ((Cursor.new Movie "u" "t" 0).1).params :=
  c10_exec_success_frame (Cursor.new Movie "u" "t" 0).1
    (.ok 200 sampleEnvelope) c1post rfl

/-- C3: evaluation of the `search("13 Hours").year(2016).exec()` scenario
on the code as written: the request carries `query=13 Hours`, `year=2016`,
`adult=false` and the api key, and the cursor is hydrated with exactly the
envelope's results — but the outgoing request carries `page=2`, not
`page=1`: `MovieSearch::exec` drives a fresh page-1 cursor through
`next_page`, which pre-increments, so page 1 of the results is never
requested. -/
theorem c3_search_requests_page_two :
    (searchScenario.execRequest 1).query =
      [("api_key", "tok"), ("page", "2"), ("query", "13 Hours"),
        ("adult", "false"), ("year", "2016")] ∧
      ("page", "1") ∉ (searchScenario.execRequest 1).query ∧
      ((searchScenario.exec 1 (.ok 200 sampleEnvelope)).1).map
          Cursor.results = .ok sampleEnvelope.results := by
  refine ⟨by decide, by decide, rfl⟩

/-- C4 (amended): in the `popular()`-then-two-`next_page` scenario, when
both fetches return non-error statuses, the second `next_page` call issues
a request with `page=3` and the cursor finishes at page 3 — not page 2 as
the unamended claim states: `next_page` pre-increments from the initial
page 1, so the two calls visit pages 2 and 3. -/
theorem c4_popular_second_advance (host tok : String) (n : Nat)
    (code1 code2 : Nat) (d1 d2 : CursorPage Movie)
    (h1 : statusFails code1 = false) (h2 : statusFails code2 = false) :
    popularTwiceObs host tok n (.ok code1 d1) (.ok code2 d2) =
      some ([("api_key", tok), ("page", "3")], 3) := by
  simp only [popularTwiceObs, popularTwice, Movies.new, Movies.popular,
    Cursor.new, clientBang, Cursor.next_page, Cursor.exec,
    Cursor.execCore, Cursor.incPage, Cursor.nextPageRequest,
    Cursor.request, h1, h2, Bool.false_eq_true, if_false]
  norm_num [U64]
  rfl

/-- Counterexample to C4 as stated: on an explicit run of the scenario the
second request's page parameter is `3` and the final page is 3, whereas
the claim asserts `page=2` in the request and a final page of 2. -/
theorem c4_popular_second_advance_counterexample :
    popularTwiceObs "h" "t" 0 (.ok 200 emptyEnvelope)
        (.ok 200 emptyEnvelope) =
      some ([("api_key", "t"), ("page", "3")], 3) ∧
      ("page", "2") ∉ [("api_key", "t"), ("page", "3")] ∧
      (3 : Nat) ≠ 2 := by
  refine ⟨by decide, by decide, by decide⟩

/-- Witness for C4 (amended) at a concrete run. -/
theorem c4_popular_second_advance_witness :
    popularTwiceObs "h" "t" 0 (.ok 200 emptyEnvelope)
        (.ok 200 emptyEnvelope) =
      some ([("api_key", "t"), ("page", "3")], 3) :=
  c4_popular_second_advance "h" "t" 0 200 200 emptyEnvelope
    emptyEnvelope rfl rfl

/-- C6 (amended): along any operation sequence in which every `page(n)`
call sets a value with 1 ≤ n < 2^64 and no `next_page` increment wraps
`u64`, a cursor built by `new` always has page ≥ 1.  The unamended claim
(over unrestricted `page(n)`) fails: `page(0)` is accepted without
validation. -/
theorem c6_page_ge_one {T : Type} (url tok : String) (n : Nat)
    (ops : List (Op T))
    (hok : ((Cursor.new T url tok n).1).stepsOk ops = true) :
    1 ≤ (((Cursor.new T url tok n).1).run ops).page := by
  refine (Cursor.run_page_bounds ops _ ?_ ?_ hok).1
  · show (1 : Nat) ≤ 1
    exact le_refl 1
  · show (1 : Nat) < U64
    norm_num [U64]

/-- Counterexample to C6 as stated: `page(0)` is one of the listed
operations and drives the page below 1. -/
theorem c6_page_ge_one_counterexample :
    ¬ 1 ≤ (((Cursor.new Movie "u" "t" 0).1).run [Op.opPage 0]).page := by
  decide

/-- Witness for C6 (amended) on a concrete operation sequence mixing page
setting, params, a failed advance, a successful fetch and an advance into
a 404. -/
theorem c6_page_ge_one_witness :
    1 ≤ (((Cursor.new Movie "u" "t" 0).1).run c6ops).page :=
  c6_page_ge_one "u" "t" 0 c6ops (by decide)

/-- Counterexample to C7 as stated: the `popular()` cursors of one handler
each carry a client different from the handler's client and from each
other — a fresh `reqwest::Client` is built at every cursor construction,
and the cursor's page requests go through its own client. -/
theorem c7_shared_client_counterexample :
    c7cursor1.client ≠ c7handler.client ∧
      c7cursor2.client ≠ c7cursor1.client ∧
      c7cursor1.request.client = c7cursor1.client := by
  refine ⟨by decide, by decide, rfl⟩

/-- C7 (amended): each handler and each cursor builds its HTTP client once,
at its own construction, and that same client serves every request the
object ever issues — no client is rebuilt per call; but a cursor does not
share its handler's client. -/
theorem c7_client_fixed_per_object {T : Type} (c : Cursor T)
    (ops : List (Op T)) (host tok : String) (n : Nat) (id : Int) :
    (c.run ops).client = c.client ∧
      c.request.client = c.client ∧
      c.nextPageRequest.client = c.client ∧
      ((Movies.new host tok n).1.detailsRequest id).client =
        ((Movies.new host tok n).1).client ∧
      ((Movies.new host tok n).1.creditsRequest id).client =
        ((Movies.new host tok n).1).client :=
  ⟨Cursor.run_client ops c, rfl, rfl, rfl, rfl⟩

/-- C9: credential sourcing from the environment: a missing `TMDB_TOKEN`
is fatal — construction terminates with no client value (the `panic!` is
modelled by `none`; the Rust signature returns `Self`, so no recoverable
error value exists) — while a present token yields a client whose movie
and tv handlers both carry that token. -/
theorem c9_from_env_token (env : String → Option String) (n : Nat)
    (tok : String) :
    (env "TMDB_TOKEN" = none → Client.from_env env n = none) ∧
      (env "TMDB_TOKEN" = some tok →
        Client.from_env env n = some (Client.new tok n) ∧
          ((Client.new tok n).1).movies.token = tok ∧
          ((Client.new tok n).1).tv.token = tok) := by
  constructor
  · intro h
    simp [Client.from_env, h]
  · intro h
    exact ⟨by simp [Client.from_env, h], rfl, rfl⟩

/-- Witness for C9: an empty environment aborts construction; an
environment holding `TMDB_TOKEN=secret` builds a client whose handlers
carry the token `secret`. -/
theorem c9_from_env_token_witness :
    Client.from_env envEmpty 0 = none ∧
      (Client.from_env envTok 0 = some (Client.new "secret" 0) ∧
        ((Client.new "secret" 0).1).movies.token = "secret" ∧
        ((Client.new "secret" 0).1).tv.token = "secret") :=
  ⟨(c9_from_env_token envEmpty 0 "secret").1 rfl,
    (c9_from_env_token envTok 0 "secret").2 (by decide)⟩

end Tmdb
